import Mathlib

/-!
A shallow embedding of the two diagnostic scripts of the repository
(`check_index.py` and `check_indexer_warnings.py`).

JSON payloads are modelled by the inductive `Json`; an HTTP response is a
status code together with its raw text body and its parsed JSON body
(`Resp`).  Each `print(...)` call of the scripts contributes one element to
a `List String` of output lines, with the formatted text translated from
the f-strings of the source.  `exit(1)` is modelled by the returned exit
code of `check_index_main`.
-/

set_option maxRecDepth 4000

/-- JSON values.  Numbers are modelled as integers: every numeric field the
scripts consult (`documentCount`, `storageSize`, `vectorIndexSize`,
`itemsProcessed`, `itemsFailed`, `@odata.count`) is integral. -/
inductive Json where
  | null : Json
  | bool : Bool → Json
  | num : Int → Json
  | str : String → Json
  | arr : List Json → Json
  | obj : List (String × Json) → Json

namespace Json

/-- Field lookup on a JSON object, `none` when the key is absent or the
value is not an object (Python `dict.get(k)` returning `None`). -/
def lookup : Json → String → Option Json
  | obj fields, k => fields.lookup k
  | _, _ => none

/-- Python `d.get(k, default)`. -/
def getD (j : Json) (k : String) (d : Json) : Json :=
  (j.lookup k).getD d

/-- Python truthiness of a JSON value: `None`, `False`, `0`, and empty
strings/lists/objects are falsy. -/
def truthy : Json → Bool
  | null => false
  | bool b => b
  | num n => n != 0
  | str s => !s.isEmpty
  | arr xs => !xs.isEmpty
  | obj fields => !fields.isEmpty

/-- The elements of a JSON array (the scripts only iterate over and take
`len` of array-valued fields). -/
def items : Json → List Json
  | arr xs => xs
  | _ => []

/-- The keys of a JSON object, in order (Python `list(doc.keys())`). -/
def keys : Json → List String
  | obj fields => fields.map Prod.fst
  | _ => []

end Json

/-- The single-quote character used by Python `repr` of strings. -/
def squote : String := String.singleton (Char.ofNat 39)

mutual
/-- Python `repr` of a JSON value (used by `str` on lists and dicts). -/
def pyRepr : Json → String
  | .null => "None"
  | .bool true => "True"
  | .bool false => "False"
  | .num n => toString n
  | .str s => squote ++ s ++ squote
  | .arr xs => "[" ++ pyReprList xs ++ "]"
  | .obj fields => "\x7b" ++ pyReprFields fields ++ "\x7d"

/-- Comma-separated `repr`s of the elements of a list. -/
def pyReprList : List Json → String
  | [] => ""
  | [x] => pyRepr x
  | x :: y :: xs => pyRepr x ++ ", " ++ pyReprList (y :: xs)

/-- Comma-separated `repr`s of the entries of a dict. -/
def pyReprFields : List (String × Json) → String
  | [] => ""
  | [(k, v)] => squote ++ k ++ squote ++ ": " ++ pyRepr v
  | (k, v) :: e :: fields =>
      squote ++ k ++ squote ++ ": " ++ pyRepr v ++ ", " ++ pyReprFields (e :: fields)
end

/-- Python `str` of a JSON value, as interpolated by an f-string: a string
prints itself, everything else prints its `repr`. -/
def pyStr : Json → String
  | .str s => s
  | j => pyRepr j

/-- Python `str(d.get(k, default))` where `default` is a string literal. -/
def getS (j : Json) (k : String) (d : String) : String :=
  pyStr (j.getD k (.str d))

/-- An HTTP response: status code, raw text body, and parsed JSON body
(`response.json()`). -/
structure Resp where
  status_code : Nat
  text : String
  json : Json

instance : Inhabited Json := ⟨Json.null⟩

/-- The key/value pairs of a JSON object (Python `doc.items()`). -/
def Json.entries : Json → List (String × Json)
  | .obj fields => fields
  | _ => []

/-! ## `check_indexer_warnings.py` — `get_indexer_status_details` -/

/-- The three lines printed for the `i`-th error of the last run
(`check_indexer_warnings.py` lines 44-46).  Note the source reads the
`errorMessage` key of the entry. -/
def errorEntryLines (i : Nat) (error : Json) : List String :=
  ["    " ++ toString i ++ ". " ++ getS error "errorMessage" "Unknown error",
   "       Key: " ++ getS error "key" "N/A",
   "       Name: " ++ getS error "name" "N/A"]

/-- The ERRORS block of the last run (`check_indexer_warnings.py`
lines 40-46): header with the total count, then the first 10 entries. -/
def errorsLines (last_result : Json) : List String :=
  let errors := last_result.getD "errors" (.arr [])
  if errors.truthy then
    ("\n  ERRORS (" ++ toString errors.items.length ++ "):") ::
      ((errors.items.take 10).enum.map
        (fun p => errorEntryLines (p.1 + 1) p.2)).flatten
  else []

/-- The five lines printed for the `i`-th warning of the last run
(`check_indexer_warnings.py` lines 53-57, the trailing `print()`
included). -/
def warningEntryLines (i : Nat) (warning : Json) : List String :=
  ["    " ++ toString i ++ ". " ++ getS warning "message" "Unknown warning",
   "       Key: " ++ getS warning "key" "N/A",
   "       Name: " ++ getS warning "name" "N/A",
   "       Details: " ++ getS warning "details" "N/A",
   ""]

/-- The WARNINGS block of the last run (`check_indexer_warnings.py`
lines 49-57): header with the total count, then the first 20 entries. -/
def warningsLines (last_result : Json) : List String :=
  let warnings := last_result.getD "warnings" (.arr [])
  if warnings.truthy then
    ("\n  WARNINGS (" ++ toString warnings.items.length ++ "):") ::
      ((warnings.items.take 20).enum.map
        (fun p => warningEntryLines (p.1 + 1) p.2)).flatten
  else []

/-- The Last Run section (`check_indexer_warnings.py` lines 32-57),
guarded by the truthiness of `lastResult`. -/
def lastRunLines (last_result : Json) : List String :=
  if last_result.truthy then
    ["\nLast Run:",
     "  Status: " ++ pyStr (last_result.getD "status" .null),
     "  Items Processed: " ++ pyStr (last_result.getD "itemsProcessed" (.num 0)),
     "  Items Failed: " ++ pyStr (last_result.getD "itemsFailed" (.num 0))] ++
    errorsLines last_result ++ warningsLines last_result
  else []

/-- The warnings sub-block of the Recent Execution section
(`check_indexer_warnings.py` lines 65-69): count, then the first 5
messages with default "Unknown". -/
def recentWarningLines (recent : Json) : List String :=
  let warnings := recent.getD "warnings" (.arr [])
  if warnings.truthy then
    ("Warnings in this run: " ++ toString warnings.items.length) ::
      (warnings.items.take 5).enum.map
        (fun p => "  " ++ toString (p.1 + 1) ++ ". " ++ getS p.2 "message" "Unknown")
  else []

/-- The Recent Execution section (`check_indexer_warnings.py`
lines 60-69): printed only when the history is truthy with more than one
entry, and reporting `history[0]`, the most recent entry. -/
def recentExecLines (history : Json) : List String :=
  if history.truthy && history.items.length > 1 then
    ["\n=== Recent Execution ===",
     "Status: " ++ pyStr (history.items.headI.getD "status" .null)] ++
    recentWarningLines history.items.headI
  else []

/-- `get_indexer_status_details(indexer_name)` applied to the HTTP
response of the status lookup: the printed lines paired with the return
value (`None` on non-200, the parsed payload on 200). -/
def get_indexer_status_details (indexer_name : String) (response : Resp) :
    List String × Option Json :=
  if response.status_code == 200 then
    let status_data := response.json
    (["\n=== Indexer: " ++ indexer_name ++ " ===",
      "Status: " ++ pyStr (status_data.getD "status" .null)] ++
     lastRunLines (status_data.getD "lastResult" (.obj [])) ++
     recentExecLines (status_data.getD "executionHistory" (.arr [])),
     some status_data)
  else
    (["Error: " ++ toString response.status_code, response.text], none)

/-! ## `check_index.py` -/

/-- The fixed index identifier of `check_index.py`. -/
def INDEX_NAME : String := "idx-score-operatorsupport"

/-- The three statistics lines plus the blank line printed on a 200 stats
response (`check_index.py` lines 27-30). -/
def statsOkLines (stats : Json) : List String :=
  ["Document Count: " ++ pyStr (stats.getD "documentCount" (.num 0)),
   "Storage Size: " ++ pyStr (stats.getD "storageSize" (.num 0)) ++ " bytes",
   "Vector Index Size: " ++ pyStr (stats.getD "vectorIndexSize" (.num 0)) ++ " bytes",
   ""]

/-- `doc_count = results.get('@odata.count') or len(results.get('value', []))`
(`check_index.py` line 48), as the string the f-string interpolates:
the server field when truthy, otherwise the length of `value`. -/
def docCountStr (results : Json) : String :=
  let c := results.getD "@odata.count" .null
  if c.truthy then pyStr c
  else toString (results.getD "value" (.arr [])).items.length

/-- The truncated display of one document field value
(`check_index.py` lines 58-63). -/
def displayValue : Json → String
  | .str value =>
      if value.length > 200 then value.take 200 ++ "..." else value
  | .arr (v0 :: vs) =>
      "[" ++ toString (v0 :: vs).length ++ " items] " ++ (pyStr v0).take 100 ++ "..."
  | value => (pyStr value).take 200

/-- Python `str.startswith`: `startswith s p` checks that `p` is a
prefix of `s`. -/
def startswith (s p : String) : Bool := p.data.isPrefixOf s.data

/-- The lines printed for the `i`-th sample document
(`check_index.py` lines 52-65): header, field-name list, blank line, one
line per non-metadata field (keys starting with `@` are skipped), blank
line. -/
def docReportLines (i : Nat) (doc : Json) : List String :=
  ["Document " ++ toString i ++ ":",
   "  Available fields: " ++ pyRepr (.arr (doc.keys.map .str)),
   ""] ++
  ((doc.entries.filter (fun p => !startswith p.1 "@")).map
    (fun p => "  " ++ p.1 ++ ": " ++ displayValue p.2)) ++
  [""]

/-- The Sample Documents section body (`check_index.py` lines 46-68). -/
def searchLines (search_response : Resp) : List String :=
  if search_response.status_code == 200 then
    let results := search_response.json
    ("Total documents in search: " ++ docCountStr results ++ "\n") ::
      ((results.getD "value" (.arr [])).items.enum.map
        (fun p => docReportLines (p.1 + 1) p.2)).flatten
  else
    ["Error searching: " ++ toString search_response.status_code,
     search_response.text]

/-- The lines printed for the `i`-th vector-search result
(`check_index.py` lines 91-95). -/
def vectorResultLines (i : Nat) (doc : Json) : List String :=
  ["Result " ++ toString i ++ ":",
   "  Score: " ++ getS doc "@search.score" "N/A",
   "  Title: " ++ getS doc "title" "N/A",
   "  Source URL: " ++ getS doc "source_url" "N/A",
   ""]

/-- The Vector Search Test section body (`check_index.py` lines 86-100). -/
def vectorLines (vector_response : Resp) : List String :=
  if vector_response.status_code == 200 then
    let results := vector_response.json
    ("Vector search returned " ++
       toString (results.getD "value" (.arr [])).items.length ++ " results\n") ::
    (((results.getD "value" (.arr [])).items.enum.map
        (fun p => vectorResultLines (p.1 + 1) p.2)).flatten ++
     ["✅ Vector embeddings are working correctly!"])
  else
    ["❌ Error with vector search: " ++ toString vector_response.status_code,
     vector_response.text]

/-- The whole `check_index.py` run as a function of the three HTTP
responses it receives, returning the printed lines and the process exit
code.  A non-200 stats response hits `exit(1)` (line 34): nothing after
the two error lines is printed and the exit code is 1; otherwise the
script runs to completion with exit code 0. -/
def check_index_main (stats_response search_response vector_response : Resp) :
    List String × Nat :=
  let hdr := "=== Index Statistics for " ++ INDEX_NAME ++ " ===\n"
  if stats_response.status_code == 200 then
    ([hdr] ++ statsOkLines stats_response.json ++
     ["=== Sample Documents ===\n"] ++ searchLines search_response ++
     ["\n=== Vector Search Test ===\n"] ++ vectorLines vector_response, 0)
  else
    ([hdr, "Error getting stats: " ++ toString stats_response.status_code,
      stats_response.text], 1)


/-! ## Helper lemmas -/

/-- On a 200 response the report is the two header lines, the Last Run
section, and the Recent Execution section, and the parsed payload is
returned. -/
theorem get_indexer_status_details_200 (n : String) (r : Resp)
    (h : r.status_code = 200) :
    get_indexer_status_details n r =
      (["\n=== Indexer: " ++ n ++ " ===",
        "Status: " ++ pyStr (r.json.getD "status" .null)] ++
       lastRunLines (r.json.getD "lastResult" (.obj [])) ++
       recentExecLines (r.json.getD "executionHistory" (.arr [])),
       some r.json) := by
  simp [get_indexer_status_details, h]

/-! ## C7 -/

/-- C7: `get_indexer_status_details` returns `none` exactly on a non-200
response, in which case it prints the status code and the raw body; on a
200 response it returns the full parsed payload unmodified. -/
theorem c7_get_status_return (n : String) (r : Resp) :
    ((get_indexer_status_details n r).2 = none ↔ r.status_code ≠ 200) ∧
    (r.status_code ≠ 200 →
      (get_indexer_status_details n r).1 =
        ["Error: " ++ toString r.status_code, r.text]) ∧
    (r.status_code = 200 → (get_indexer_status_details n r).2 = some r.json) := by
  by_cases h : r.status_code = 200 <;>
    simp [get_indexer_status_details, h]

/-- Witness for C7 at a concrete 404 response and a concrete 200
response. -/
theorem c7_get_status_return_witness :
    (get_indexer_status_details "ix" ⟨404, "not found", Json.null⟩).2 = none ∧
    (get_indexer_status_details "ix" ⟨404, "not found", Json.null⟩).1 =
      ["Error: 404", "not found"] ∧
    (get_indexer_status_details "ix" ⟨200, "", Json.obj []⟩).2 =
      some (Json.obj []) := by
  refine ⟨?_, ?_, ?_⟩
  · exact (c7_get_status_return "ix" ⟨404, "not found", Json.null⟩).1.mpr (by decide)
  · exact ((c7_get_status_return "ix" ⟨404, "not found", Json.null⟩).2.1
      (by decide)).trans (by decide)
  · exact (c7_get_status_return "ix" ⟨200, "", Json.obj []⟩).2.2 rfl

/-! ## C9 -/

/-- C9: when `lastResult` is absent or an empty object, the whole Last Run
section (including the errors and warnings blocks) is skipped, the
execution-history section is still evaluated, and the payload is still
returned. -/
theorem c9_skip_last_run (n : String) (r : Resp)
    (h200 : r.status_code = 200)
    (hlr : r.json.lookup "lastResult" = none ∨
           r.json.lookup "lastResult" = some (Json.obj [])) :
    (get_indexer_status_details n r).1 =
      ["\n=== Indexer: " ++ n ++ " ===",
       "Status: " ++ pyStr (r.json.getD "status" .null)] ++
      recentExecLines (r.json.getD "executionHistory" (.arr [])) ∧
    (get_indexer_status_details n r).2 = some r.json := by
  have hl : lastRunLines (r.json.getD "lastResult" (.obj [])) = [] := by
    rcases hlr with h | h <;> simp [lastRunLines, Json.getD, h, Json.truthy]
  rw [get_indexer_status_details_200 n r h200]
  simp [hl]

/-- Witness for C9: a payload with no `lastResult` but a two-entry
execution history still renders the history section and returns the
payload. -/
theorem c9_skip_last_run_witness :
    (get_indexer_status_details "ix"
        ⟨200, "", Json.obj [("status", Json.str "running"),
          ("executionHistory", Json.arr [Json.obj [("status", Json.str "success")],
                                         Json.obj []])]⟩).1 =
      ["\n=== Indexer: ix ===", "Status: running",
       "\n=== Recent Execution ===", "Status: success"] ∧
    (get_indexer_status_details "ix"
        ⟨200, "", Json.obj [("status", Json.str "running"),
          ("executionHistory", Json.arr [Json.obj [("status", Json.str "success")],
                                         Json.obj []])]⟩).2 =
      some (Json.obj [("status", Json.str "running"),
        ("executionHistory", Json.arr [Json.obj [("status", Json.str "success")],
                                       Json.obj []])]) := by
  have h := c9_skip_last_run "ix"
    ⟨200, "", Json.obj [("status", Json.str "running"),
      ("executionHistory", Json.arr [Json.obj [("status", Json.str "success")],
                                     Json.obj []])]⟩
    rfl (Or.inl rfl)
  exact ⟨h.1.trans (by decide), h.2⟩

/-! ## C3 -/

/-- C3: a non-200 stats response makes `check_index.py` print only the
header and the two error lines and exit with code 1; on a 200 stats
response the run exits with code 0 and both the sample-document section
and the vector section are rendered, a failure in either being reported
in place without stopping the other. -/
theorem c3_stats_fatal_siblings_isolated (s q v : Resp) :
    (s.status_code ≠ 200 →
      check_index_main s q v =
        (["=== Index Statistics for " ++ INDEX_NAME ++ " ===\n",
          "Error getting stats: " ++ toString s.status_code, s.text], 1)) ∧
    (s.status_code = 200 →
      check_index_main s q v =
        (["=== Index Statistics for " ++ INDEX_NAME ++ " ===\n"] ++
         statsOkLines s.json ++ ["=== Sample Documents ===\n"] ++
         searchLines q ++ ["\n=== Vector Search Test ===\n"] ++ vectorLines v,
         0)) ∧
    (q.status_code ≠ 200 →
      searchLines q = ["Error searching: " ++ toString q.status_code, q.text]) ∧
    (v.status_code ≠ 200 →
      vectorLines v =
        ["❌ Error with vector search: " ++ toString v.status_code, v.text]) := by
  refine ⟨fun h => ?_, fun h => ?_, fun h => ?_, fun h => ?_⟩ <;>
    simp [check_index_main, searchLines, vectorLines, h]

/-- Witness for C3: with a 404 stats response the run aborts after the
error lines with exit code 1; with a 200 stats response and a 500 search
response the vector section still runs and the exit code is 0. -/
theorem c3_stats_fatal_siblings_isolated_witness :
    check_index_main ⟨404, "no index", Json.null⟩ ⟨200, "", Json.obj []⟩
        ⟨200, "", Json.obj []⟩ =
      (["=== Index Statistics for idx-score-operatorsupport ===\n",
        "Error getting stats: 404", "no index"], 1) ∧
    check_index_main ⟨200, "", Json.obj []⟩ ⟨500, "boom", Json.null⟩
        ⟨200, "", Json.obj []⟩ =
      (["=== Index Statistics for idx-score-operatorsupport ===\n",
        "Document Count: 0", "Storage Size: 0 bytes",
        "Vector Index Size: 0 bytes", "",
        "=== Sample Documents ===\n",
        "Error searching: 500", "boom",
        "\n=== Vector Search Test ===\n",
        "Vector search returned 0 results\n",
        "✅ Vector embeddings are working correctly!"], 0) := by
  constructor
  · exact (c3_stats_fatal_siblings_isolated ⟨404, "no index", Json.null⟩
      ⟨200, "", Json.obj []⟩ ⟨200, "", Json.obj []⟩).1 (by decide)
  · refine ((c3_stats_fatal_siblings_isolated ⟨200, "", Json.obj []⟩
      ⟨500, "boom", Json.null⟩ ⟨200, "", Json.obj []⟩).2.1 rfl).trans ?_
    decide

/-! ## C8 -/

/-- C8: on a 200 stats response each statistics line shows the value of
the corresponding JSON field, `Json.getD` substituting it verbatim when
present and printing 0 when absent. -/
theorem c8_stats_defaults (s q v : Resp) (h200 : s.status_code = 200) :
    (check_index_main s q v).1 =
      ("=== Index Statistics for " ++ INDEX_NAME ++ " ===\n") ::
      ("Document Count: " ++ pyStr (s.json.getD "documentCount" (.num 0))) ::
      ("Storage Size: " ++ pyStr (s.json.getD "storageSize" (.num 0)) ++ " bytes") ::
      ("Vector Index Size: " ++
          pyStr (s.json.getD "vectorIndexSize" (.num 0)) ++ " bytes") ::
      "" :: "=== Sample Documents ===\n" ::
        (searchLines q ++ "\n=== Vector Search Test ===\n" :: vectorLines v) ∧
    (∀ k, s.json.lookup k = none → pyStr (s.json.getD k (.num 0)) = "0") ∧
    (∀ k c, s.json.lookup k = some c → s.json.getD k (.num 0) = c) := by
  refine ⟨?_, fun k hk => ?_, fun k c hk => ?_⟩
  · simp [check_index_main, statsOkLines, h200]
  · simp [Json.getD, hk, pyStr, pyRepr]
    decide
  · simp [Json.getD, hk]

/-- Witness for C8: the spec's scenario payload prints 42/1000/200, and a
payload missing all three fields prints 0 for each. -/
theorem c8_stats_defaults_witness :
    (check_index_main
        ⟨200, "", Json.obj [("documentCount", Json.num 42),
          ("storageSize", Json.num 1000), ("vectorIndexSize", Json.num 200)]⟩
        ⟨500, "x", Json.null⟩ ⟨500, "y", Json.null⟩).1 =
      ["=== Index Statistics for idx-score-operatorsupport ===\n",
       "Document Count: 42", "Storage Size: 1000 bytes",
       "Vector Index Size: 200 bytes", "",
       "=== Sample Documents ===\n", "Error searching: 500", "x",
       "\n=== Vector Search Test ===\n",
       "❌ Error with vector search: 500", "y"] ∧
    (check_index_main ⟨200, "", Json.obj []⟩
        ⟨500, "x", Json.null⟩ ⟨500, "y", Json.null⟩).1 =
      ["=== Index Statistics for idx-score-operatorsupport ===\n",
       "Document Count: 0", "Storage Size: 0 bytes",
       "Vector Index Size: 0 bytes", "",
       "=== Sample Documents ===\n", "Error searching: 500", "x",
       "\n=== Vector Search Test ===\n",
       "❌ Error with vector search: 500", "y"] := by
  constructor
  · exact ((c8_stats_defaults
      ⟨200, "", Json.obj [("documentCount", Json.num 42),
        ("storageSize", Json.num 1000), ("vectorIndexSize", Json.num 200)]⟩
      ⟨500, "x", Json.null⟩ ⟨500, "y", Json.null⟩ rfl).1).trans (by decide)
  · exact ((c8_stats_defaults ⟨200, "", Json.obj []⟩
      ⟨500, "x", Json.null⟩ ⟨500, "y", Json.null⟩ rfl).1).trans (by decide)

/-- The flattening of lists of a fixed length `c` has length
`c * (number of lists)`. -/
theorem length_flatten_map_const {α β : Type} (f : α → List β) (c : Nat)
    (hf : ∀ a, (f a).length = c) :
    ∀ l : List α, ((l.map f).flatten).length = c * l.length := by
  intro l
  induction l with
  | nil => simp
  | cons x xs ih =>
      simp only [List.map_cons, List.flatten_cons, List.length_append, hf, ih,
        List.length_cons]
      ring

/-! ## C10 -/

/-- C10: the counts in the ERRORS and WARNINGS headers are the total
lengths of the error and warning sequences, while the number of rendered
entries is capped at 10 and 20 respectively: the block consists of the
header plus 3 lines per rendered error and 5 lines per rendered
warning. -/
theorem c10_header_total_counts (lr : Json) (es ws : List Json)
    (he : lr.getD "errors" (Json.arr []) = Json.arr es)
    (hw : lr.getD "warnings" (Json.arr []) = Json.arr ws) :
    (es ≠ [] →
      (errorsLines lr).take 1 = ["\n  ERRORS (" ++ toString es.length ++ "):"] ∧
      (errorsLines lr).length = 1 + 3 * min 10 es.length) ∧
    (ws ≠ [] →
      (warningsLines lr).take 1 =
        ["\n  WARNINGS (" ++ toString ws.length ++ "):"] ∧
      (warningsLines lr).length = 1 + 5 * min 20 ws.length) := by
  constructor
  · intro hne
    have hflat := length_flatten_map_const
      (fun p : Nat × Json => errorEntryLines (p.1 + 1) p.2) 3
      (fun p => by simp [errorEntryLines]) (es.take 10).enum
    constructor
    · simp [errorsLines, he, Json.truthy, Json.items, hne]
    · simp [errorsLines, he, Json.truthy, Json.items, hne, hflat,
        List.enum_length, List.length_take]
      ring
  · intro hne
    have hflat := length_flatten_map_const
      (fun p : Nat × Json => warningEntryLines (p.1 + 1) p.2) 5
      (fun p => by simp [warningEntryLines]) (ws.take 20).enum
    constructor
    · simp [warningsLines, hw, Json.truthy, Json.items, hne]
    · simp [warningsLines, hw, Json.truthy, Json.items, hne, hflat,
        List.enum_length, List.length_take]
      ring

/-- Witness for C10: with 2 errors and 25 warnings the headers show 2 and
25, while the blocks hold 2 and 20 rendered entries (7 and 101 lines). -/
theorem c10_header_total_counts_witness :
    (errorsLines (Json.obj [("errors", Json.arr [Json.obj [], Json.obj []]),
        ("warnings", Json.arr (List.replicate 25 (Json.obj [])))])).take 1 =
      ["\n  ERRORS (2):"] ∧
    (errorsLines (Json.obj [("errors", Json.arr [Json.obj [], Json.obj []]),
        ("warnings", Json.arr (List.replicate 25 (Json.obj [])))])).length = 7 ∧
    (warningsLines (Json.obj [("errors", Json.arr [Json.obj [], Json.obj []]),
        ("warnings", Json.arr (List.replicate 25 (Json.obj [])))])).take 1 =
      ["\n  WARNINGS (25):"] ∧
    (warningsLines (Json.obj [("errors", Json.arr [Json.obj [], Json.obj []]),
        ("warnings", Json.arr (List.replicate 25 (Json.obj [])))])).length =
      101 := by
  have h := c10_header_total_counts
    (Json.obj [("errors", Json.arr [Json.obj [], Json.obj []]),
      ("warnings", Json.arr (List.replicate 25 (Json.obj [])))])
    [Json.obj [], Json.obj []] (List.replicate 25 (Json.obj [])) rfl rfl
  have he := h.1 (by simp)
  have hw := h.2 (by simp)
  exact ⟨he.1.trans (by decide), he.2.trans (by decide),
    hw.1.trans (by decide), hw.2.trans (by decide)⟩

/-! ## C6 -/

/-- C6: on a 200 payload whose last run has a non-empty warning sequence
of length `N`, the report renders the WARNINGS block somewhere in the
output; the block is the count header followed by exactly the first
`min N 20` warnings, each rendered with message (default
"Unknown warning"), key (default "N/A"), name (default "N/A") and details
(default "N/A"). -/
theorem c6_warnings_first_twenty (n : String) (r : Resp) (lr : Json)
    (ws : List Json)
    (h200 : r.status_code = 200)
    (hlr : r.json.getD "lastResult" (Json.obj []) = lr)
    (htr : lr.truthy = true)
    (hw : lr.getD "warnings" (Json.arr []) = Json.arr ws)
    (hne : ws ≠ []) :
    (∃ pre post, (get_indexer_status_details n r).1 =
        pre ++ warningsLines lr ++ post) ∧
    warningsLines lr =
      ("\n  WARNINGS (" ++ toString ws.length ++ "):") ::
        ((ws.take 20).enum.map (fun p =>
          ["    " ++ toString (p.1 + 1) ++ ". " ++
              getS p.2 "message" "Unknown warning",
           "       Key: " ++ getS p.2 "key" "N/A",
           "       Name: " ++ getS p.2 "name" "N/A",
           "       Details: " ++ getS p.2 "details" "N/A",
           ""])).flatten ∧
    (ws.take 20).length = min ws.length 20 := by
  refine ⟨?_, ?_, ?_⟩
  · refine ⟨["\n=== Indexer: " ++ n ++ " ===",
      "Status: " ++ pyStr (r.json.getD "status" .null),
      "\nLast Run:",
      "  Status: " ++ pyStr (lr.getD "status" .null),
      "  Items Processed: " ++ pyStr (lr.getD "itemsProcessed" (.num 0)),
      "  Items Failed: " ++ pyStr (lr.getD "itemsFailed" (.num 0))] ++
      errorsLines lr,
      recentExecLines (r.json.getD "executionHistory" (.arr [])), ?_⟩
    rw [get_indexer_status_details_200 n r h200]
    simp [hlr, lastRunLines, htr]
  · simp [warningsLines, hw, Json.truthy, Json.items, hne, warningEntryLines]
  · simp [List.length_take, Nat.min_comm]

/-- Witness for C6 at a payload with 25 warnings: the block starts with
the total count and renders exactly the first 20 entries, 101 lines in
all. -/
theorem c6_warnings_first_twenty_witness :
    (∃ pre post,
      (get_indexer_status_details "ix"
          ⟨200, "", Json.obj [("lastResult", Json.obj [("warnings",
            Json.arr (List.replicate 25 (Json.obj [("message",
              Json.str "w")])))])]⟩).1 =
        pre ++ warningsLines (Json.obj [("warnings",
          Json.arr (List.replicate 25 (Json.obj [("message",
            Json.str "w")])))]) ++ post) ∧
    (warningsLines (Json.obj [("warnings",
        Json.arr (List.replicate 25 (Json.obj [("message",
          Json.str "w")])))])).take 2 =
      ["\n  WARNINGS (25):", "    1. w"] ∧
    (warningsLines (Json.obj [("warnings",
        Json.arr (List.replicate 25 (Json.obj [("message",
          Json.str "w")])))])).length = 101 := by
  have h := c6_warnings_first_twenty "ix"
    ⟨200, "", Json.obj [("lastResult", Json.obj [("warnings",
      Json.arr (List.replicate 25 (Json.obj [("message", Json.str "w")])))])]⟩
    (Json.obj [("warnings",
      Json.arr (List.replicate 25 (Json.obj [("message", Json.str "w")])))])
    (List.replicate 25 (Json.obj [("message", Json.str "w")]))
    rfl rfl (by decide) rfl (by simp)
  refine ⟨h.1, ?_, ?_⟩
  · rw [h.2.1]; decide
  · rw [h.2.1]; decide


/-! ## C5 -/

/-- C5: each string-valued non-metadata field of a rendered document
appears as a field line whose displayed value is the first 200 characters
followed by "..." when the string is longer than 200 characters, and the
unchanged string otherwise. -/
theorem c5_string_truncation (i : Nat) (doc : List (String × Json))
    (k s : String)
    (hmem : (k, Json.str s) ∈ doc) (hmeta : startswith k "@" = false) :
    ("  " ++ k ++ ": " ++ displayValue (Json.str s)) ∈
      docReportLines i (Json.obj doc) ∧
    (200 < s.length →
      displayValue (Json.str s) = s.take 200 ++ "..." ∧
      (s.take 200).length = 200) ∧
    (s.length ≤ 200 → displayValue (Json.str s) = s) := by
  refine ⟨?_, fun hlen => ⟨?_, ?_⟩, fun hlen => ?_⟩
  · have h1 : (k, Json.str s) ∈ doc.filter (fun p => !startswith p.1 "@") :=
      List.mem_filter.mpr ⟨hmem, by simp [hmeta]⟩
    have h2 := List.mem_map_of_mem
      (fun p : String × Json => "  " ++ p.1 ++ ": " ++ displayValue p.2) h1
    simp only [docReportLines, Json.entries, List.append_assoc,
      List.mem_append, List.mem_cons]
    tauto
  · show (if s.length > 200 then s.take 200 ++ "..." else s) = s.take 200 ++ "..."
    rw [if_pos hlen]
  · rw [String.take_eq]
    have hd : 200 ≤ s.data.length := Nat.le_of_lt hlen
    show (s.data.take 200).length = 200
    rw [List.length_take]
    omega
  · show (if s.length > 200 then s.take 200 ++ "..." else s) = s
    rw [if_neg (by omega)]

set_option maxRecDepth 100000 in
/-- Witness for C5: a 201-character string field is displayed as its
first 200 characters followed by "...". -/
theorem c5_string_truncation_witness :
    ("  " ++ "body" ++ ": " ++
        (String.mk (List.replicate 200 'a') ++ "...")) ∈
      docReportLines 1
        (Json.obj [("body", Json.str (String.mk (List.replicate 201 'a')))]) ∧
    displayValue (Json.str (String.mk (List.replicate 201 'a'))) =
      String.mk (List.replicate 200 'a') ++ "..." := by
  have h := c5_string_truncation 1
    [("body", Json.str (String.mk (List.replicate 201 'a')))]
    "body" (String.mk (List.replicate 201 'a'))
    (List.Mem.head _) (by decide)
  have hlen : 200 < (String.mk (List.replicate 201 'a')).length := by decide
  have e := (h.2.1 hlen).1
  have e2 : (String.mk (List.replicate 201 'a')).take 200 =
      String.mk (List.replicate 200 'a') := by decide
  rw [e2] at e
  have hm := h.1
  rw [e] at hm
  exact ⟨hm, e⟩

/-! ## C1 -/

/-- A 200 indexer-status response whose execution history holds two
entries with distinct statuses, most recent first. -/
def c1resp : Resp :=
  ⟨200, "", Json.obj [("executionHistory",
    Json.arr [Json.obj [("status", Json.str "success")],
              Json.obj [("status", Json.str "transientFailure")]])]⟩

/-- C1 counterexample: with a two-entry history the Recent Execution
section shows the status of `history[0]` ("success"); the status of the
entry at index 1 ("transientFailure") appears nowhere in the output. -/
theorem c1_counterexample :
    (get_indexer_status_details "ix" c1resp).1 =
      ["\n=== Indexer: ix ===", "Status: None",
       "\n=== Recent Execution ===", "Status: success"] ∧
    "Status: transientFailure" ∉ (get_indexer_status_details "ix" c1resp).1 := by
  decide

/-- C1 (amended): with more than one history entry the Recent Execution
section prints the status of the MOST recent entry `history[0]` and, when
that entry has a non-empty warning sequence, their count plus up to the
first 5 warning messages (default "Unknown"); with a history of length at
most 1 the section contributes nothing. -/
theorem c1_recent_execution (n : String) (r : Resp) (hs : List Json)
    (h200 : r.status_code = 200)
    (hh : r.json.getD "executionHistory" (Json.arr []) = Json.arr hs) :
    (get_indexer_status_details n r).1 =
      ["\n=== Indexer: " ++ n ++ " ===",
       "Status: " ++ pyStr (r.json.getD "status" .null)] ++
      lastRunLines (r.json.getD "lastResult" (.obj [])) ++
      recentExecLines (Json.arr hs) ∧
    (hs.length ≤ 1 → recentExecLines (Json.arr hs) = []) ∧
    (∀ h0 h1 rest, hs = h0 :: h1 :: rest →
      recentExecLines (Json.arr hs) =
        ["\n=== Recent Execution ===",
         "Status: " ++ pyStr (h0.getD "status" .null)] ++
        recentWarningLines h0) ∧
    (∀ j ws, j.getD "warnings" (Json.arr []) = Json.arr ws → ws ≠ [] →
      recentWarningLines j =
        ("Warnings in this run: " ++ toString ws.length) ::
          (ws.take 5).enum.map (fun p =>
            "  " ++ toString (p.1 + 1) ++ ". " ++
              getS p.2 "message" "Unknown")) := by
  refine ⟨?_, fun hle => ?_, fun h0 h1 rest he => ?_, fun j ws hw hne => ?_⟩
  · rw [get_indexer_status_details_200 n r h200]
    simp [hh]
  · rcases hs with _ | ⟨a, _ | ⟨b, t⟩⟩
    · simp [recentExecLines, Json.truthy, Json.items]
    · simp [recentExecLines, Json.truthy, Json.items]
    · simp at hle
  · subst he
    simp [recentExecLines, Json.truthy, Json.items, List.headI]
  · simp [recentWarningLines, hw, Json.truthy, Json.items, hne]

/-- Witness for C1 (amended) at `c1resp`: the section shows the head
entry's status. -/
theorem c1_recent_execution_witness :
    (get_indexer_status_details "ix" c1resp).1 =
      ["\n=== Indexer: ix ===", "Status: None",
       "\n=== Recent Execution ===", "Status: success"] ∧
    recentExecLines (Json.arr [Json.obj [("status", Json.str "success")],
        Json.obj [("status", Json.str "transientFailure")]]) =
      ["\n=== Recent Execution ===", "Status: success"] := by
  have h := c1_recent_execution "ix" c1resp
    [Json.obj [("status", Json.str "success")],
     Json.obj [("status", Json.str "transientFailure")]] rfl rfl
  have hr := h.2.2.1 (Json.obj [("status", Json.str "success")])
    (Json.obj [("status", Json.str "transientFailure")]) [] rfl
  exact ⟨h.1.trans (by decide), hr.trans (by decide)⟩

/-! ## C2 -/

/-- A 200 indexer-status response whose last run has one error entry
carrying only a `message` field. -/
def c2resp : Resp :=
  ⟨200, "", Json.obj [("lastResult", Json.obj [("errors",
    Json.arr [Json.obj [("message", Json.str "X")]])])]⟩

/-- C2 counterexample: the error entry `{"message": "X"}` is rendered as
"Unknown error" (the code reads the `errorMessage` key of the entry), not
with message "X". -/
theorem c2_counterexample :
    (get_indexer_status_details "ix" c2resp).1 =
      ["\n=== Indexer: ix ===", "Status: None",
       "\nLast Run:", "  Status: None", "  Items Processed: 0",
       "  Items Failed: 0",
       "\n  ERRORS (1):", "    1. Unknown error", "       Key: N/A",
       "       Name: N/A"] ∧
    "    1. X" ∉ (get_indexer_status_details "ix" c2resp).1 := by
  decide

/-- C2 (amended): on a 200 payload whose last run has a non-empty error
sequence the report renders the ERRORS block: the count, then up to the
first 10 errors, each showing the entry's `errorMessage` field (default
"Unknown error"), its key (default "N/A") and its name (default "N/A");
an entry with only a `message` field therefore shows "Unknown error". -/
theorem c2_errors_first_ten (n : String) (r : Resp) (lr : Json)
    (es : List Json)
    (h200 : r.status_code = 200)
    (hlr : r.json.getD "lastResult" (Json.obj []) = lr)
    (htr : lr.truthy = true)
    (he : lr.getD "errors" (Json.arr []) = Json.arr es)
    (hne : es ≠ []) :
    (∃ pre post, (get_indexer_status_details n r).1 =
        pre ++ errorsLines lr ++ post) ∧
    errorsLines lr =
      ("\n  ERRORS (" ++ toString es.length ++ "):") ::
        ((es.take 10).enum.map (fun p =>
          ["    " ++ toString (p.1 + 1) ++ ". " ++
              getS p.2 "errorMessage" "Unknown error",
           "       Key: " ++ getS p.2 "key" "N/A",
           "       Name: " ++ getS p.2 "name" "N/A"])).flatten := by
  refine ⟨?_, ?_⟩
  · refine ⟨["\n=== Indexer: " ++ n ++ " ===",
      "Status: " ++ pyStr (r.json.getD "status" .null),
      "\nLast Run:",
      "  Status: " ++ pyStr (lr.getD "status" .null),
      "  Items Processed: " ++ pyStr (lr.getD "itemsProcessed" (.num 0)),
      "  Items Failed: " ++ pyStr (lr.getD "itemsFailed" (.num 0))],
      warningsLines lr ++
        recentExecLines (r.json.getD "executionHistory" (.arr [])), ?_⟩
    rw [get_indexer_status_details_200 n r h200]
    simp [hlr, lastRunLines, htr]
  · simp [errorsLines, he, Json.truthy, Json.items, hne, errorEntryLines]

/-- Witness for C2 (amended) at `c2resp`. -/
theorem c2_errors_first_ten_witness :
    errorsLines (Json.obj [("errors",
        Json.arr [Json.obj [("message", Json.str "X")]])]) =
      ["\n  ERRORS (1):", "    1. Unknown error", "       Key: N/A",
       "       Name: N/A"] := by
  have h := c2_errors_first_ten "ix" c2resp
    (Json.obj [("errors", Json.arr [Json.obj [("message", Json.str "X")]])])
    [Json.obj [("message", Json.str "X")]] rfl rfl (by decide) rfl (by simp)
  exact h.2.trans (by decide)

/-! ## C4 -/

/-- A 200 sample-search response reporting `@odata.count` 0 while
returning one document. -/
def c4resp : Resp :=
  ⟨200, "", Json.obj [("@odata.count", Json.num 0),
                      ("value", Json.arr [Json.obj []])]⟩

/-- C4 counterexample: with `@odata.count` present and equal to 0 the
printed total is the length of `value` (here 1), not the server-reported
0: the Python `or` falls through on the falsy 0. -/
theorem c4_counterexample :
    (searchLines c4resp).take 1 = ["Total documents in search: 1\n"] ∧
    "Total documents in search: 0\n" ∉ searchLines c4resp := by
  decide

/-- C4 (amended): the printed total is the server-reported
`@odata.count` only when that field is present and truthy (non-zero,
non-null); when it is absent, or present but falsy — 0 in particular —
the length of the returned `value` sequence is printed instead. -/
theorem c4_doc_count (r : Resp) (h200 : r.status_code = 200) :
    (searchLines r).take 1 =
      ["Total documents in search: " ++ docCountStr r.json ++ "\n"] ∧
    (∀ c, r.json.lookup "@odata.count" = some c → c.truthy = true →
      docCountStr r.json = pyStr c) ∧
    (∀ c, r.json.lookup "@odata.count" = some c → c.truthy = false →
      docCountStr r.json =
        toString (r.json.getD "value" (Json.arr [])).items.length) ∧
    (r.json.lookup "@odata.count" = none →
      docCountStr r.json =
        toString (r.json.getD "value" (Json.arr [])).items.length) := by
  refine ⟨?_, fun c hc ht => ?_, fun c hc ht => ?_, fun hc => ?_⟩
  · simp [searchLines, h200]
  · simp [docCountStr, Json.getD, hc, ht]
  · simp [docCountStr, Json.getD, hc, ht]
  · simp [docCountStr, Json.getD, hc, Json.truthy]

/-- Witness for C4 (amended) at `c4resp`: the falsy server-reported 0
yields the fallback length 1. -/
theorem c4_doc_count_witness :
    (searchLines c4resp).take 1 = ["Total documents in search: 1\n"] ∧
    docCountStr c4resp.json = "1" := by
  have h := c4_doc_count c4resp rfl
  exact ⟨h.1.trans (by decide),
    (h.2.2.1 (Json.num 0) rfl (by decide)).trans (by decide)⟩
